import Mathlib

/-!
Verification of the pgbouncer-operator relation reconciliation core
(src/relations/db.py and src/relations/backend_database.py).

The relation databags, the peer databag and the sections of the pooler
Config Document are Python dicts with string keys.  We embed them as
association lists with Python-dict semantics: insertion with an existing
key updates the binding in place (preserving insertion order, as Python
dicts do), `pop` removes the binding, lookup returns the first binding.
-/

namespace PgbOp

/-- Python `dict.get`: first binding for the key, if any. -/
def alookup {α : Type} : List (String × α) → String → Option α
  | [], _ => none
  | (k', v) :: t, k => if k' = k then some v else alookup t k

/-- Python `d[k] = v`: update in place when the key exists, else append. -/
def ainsert {α : Type} (k : String) (v : α) : List (String × α) → List (String × α)
  | [] => [(k, v)]
  | (k', v') :: t => if k' = k then (k, v) :: t else (k', v') :: ainsert k v t

/-- Python `d.pop(k, None)` / `del d[k]`: drop the (first) binding for the key. -/
def aremove {α : Type} (k : String) : List (String × α) → List (String × α)
  | [] => []
  | (k', v') :: t => if k' = k then t else (k', v') :: aremove k t

/-- The key list of an association list. -/
def keysOf {α : Type} (m : List (String × α)) : List String :=
  m.map Prod.fst

/-- Number of bindings carrying a given key. -/
def countKey {α : Type} (m : List (String × α)) (k : String) : Nat :=
  m.countP (fun p => decide (p.1 = k))

theorem alookup_ainsert_self {α : Type} (m : List (String × α)) (k : String) (v : α) :
    alookup (ainsert k v m) k = some v := by
  induction m with
  | nil => simp [ainsert, alookup]
  | cons p t ih =>
    obtain ⟨k', v'⟩ := p
    by_cases h : k' = k
    · simp [ainsert, h, alookup]
    · simp [ainsert, h, alookup, ih]

theorem alookup_ainsert_ne {α : Type} (m : List (String × α)) {j k : String} (v : α)
    (h : j ≠ k) : alookup (ainsert k v m) j = alookup m j := by
  have hkj : k ≠ j := Ne.symm h
  induction m with
  | nil => simp [ainsert, alookup, hkj]
  | cons p t ih =>
    obtain ⟨k', v'⟩ := p
    by_cases hk : k' = k
    · subst hk
      simp [ainsert, alookup, hkj]
    · simp only [ainsert, if_neg hk, alookup]
      by_cases hj : k' = j
      · simp [hj]
      · simp [hj, ih]

theorem ainsert_self {α : Type} {m : List (String × α)} {k : String} {v : α}
    (h : alookup m k = some v) : ainsert k v m = m := by
  induction m with
  | nil => simp [alookup] at h
  | cons p t ih =>
    obtain ⟨k', v'⟩ := p
    by_cases hk : k' = k
    · subst hk
      have hv : v' = v := by simpa [alookup] using h
      subst hv
      simp [ainsert]
    · simp only [alookup, if_neg hk] at h
      simp [ainsert, hk, ih h]

theorem alookup_eq_none_of_forall {α : Type} {m : List (String × α)} {k : String}
    (h : ∀ p ∈ m, p.1 ≠ k) : alookup m k = none := by
  induction m with
  | nil => simp [alookup]
  | cons p t ih =>
    obtain ⟨k', v'⟩ := p
    have h1 : k' ≠ k := h (k', v') (by simp)
    simp only [alookup, if_neg h1]
    exact ih fun q hq => h q (by simp [hq])

theorem forall_of_alookup_eq_none {α : Type} {m : List (String × α)} {k : String}
    (h : alookup m k = none) : ∀ p ∈ m, p.1 ≠ k := by
  induction m with
  | nil => simp
  | cons p t ih =>
    obtain ⟨k', v'⟩ := p
    by_cases hk : k' = k
    · simp [alookup, hk] at h
    · simp only [alookup, if_neg hk] at h
      intro q hq
      rcases List.mem_cons.mp hq with h1 | h1
      · subst h1; exact hk
      · exact ih h q h1

theorem aremove_of_alookup_none {α : Type} {m : List (String × α)} {k : String}
    (h : alookup m k = none) : aremove k m = m := by
  induction m with
  | nil => simp [aremove]
  | cons p t ih =>
    obtain ⟨k', v'⟩ := p
    by_cases hk : k' = k
    · simp [alookup, hk] at h
    · simp only [alookup, if_neg hk] at h
      simp [aremove, hk, ih h]

theorem alookup_eq_none_of_not_mem_keys {α : Type} {m : List (String × α)} {k : String}
    (h : k ∉ keysOf m) : alookup m k = none := by
  refine alookup_eq_none_of_forall fun p hp hk => h ?_
  exact hk ▸ List.mem_map.mpr ⟨p, hp, rfl⟩

theorem alookup_aremove_self {α : Type} {m : List (String × α)} {k : String}
    (h : (keysOf m).Nodup) : alookup (aremove k m) k = none := by
  induction m with
  | nil => simp [aremove, alookup]
  | cons p t ih =>
    obtain ⟨k', v'⟩ := p
    simp only [keysOf, List.map_cons, List.nodup_cons] at h
    by_cases hk : k' = k
    · subst hk
      simp only [aremove, if_pos rfl]
      exact alookup_eq_none_of_not_mem_keys h.1
    · simp only [aremove, if_neg hk, alookup, if_neg hk]
      exact ih h.2

theorem alookup_aremove_ne {α : Type} (m : List (String × α)) {j k : String}
    (h : j ≠ k) : alookup (aremove k m) j = alookup m j := by
  have hkj : k ≠ j := Ne.symm h
  induction m with
  | nil => simp [aremove]
  | cons p t ih =>
    obtain ⟨k', v'⟩ := p
    by_cases hk : k' = k
    · subst hk
      simp [aremove, alookup, hkj]
    · simp only [aremove, if_neg hk, alookup]
      by_cases hj : k' = j
      · simp [hj]
      · simp [hj, ih]

theorem mem_keys_ainsert {α : Type} (m : List (String × α)) (j k : String) (v : α) :
    j ∈ keysOf (ainsert k v m) ↔ j = k ∨ j ∈ keysOf m := by
  induction m with
  | nil => simp [ainsert, keysOf]
  | cons p t ih =>
    obtain ⟨k', v'⟩ := p
    by_cases hk : k' = k
    · subst hk
      simp [ainsert, keysOf]
    · simp only [ainsert, if_neg hk, keysOf, List.map_cons, List.mem_cons] at ih ⊢
      rw [ih]
      tauto

theorem keys_nodup_ainsert {α : Type} {m : List (String × α)} (k : String) (v : α)
    (h : (keysOf m).Nodup) : (keysOf (ainsert k v m)).Nodup := by
  induction m with
  | nil => simp [ainsert, keysOf]
  | cons p t ih =>
    obtain ⟨k', v'⟩ := p
    simp only [keysOf, List.map_cons, List.nodup_cons] at h
    by_cases hk : k' = k
    · subst hk
      simpa [ainsert, keysOf, List.nodup_cons] using h
    · simp only [ainsert, if_neg hk, keysOf, List.map_cons, List.nodup_cons]
      refine ⟨fun hmem => ?_, ih h.2⟩
      rcases (mem_keys_ainsert t k' k v).mp hmem with h1 | h1
      · exact hk h1
      · exact h.1 h1

theorem mem_keys_aremove {α : Type} (m : List (String × α)) (j k : String) :
    j ∈ keysOf (aremove k m) → j ∈ keysOf m := by
  induction m with
  | nil => simp [aremove]
  | cons p t ih =>
    obtain ⟨k', v'⟩ := p
    by_cases hk : k' = k
    · subst hk
      simp only [aremove, if_pos rfl, keysOf, List.map_cons, List.mem_cons]
      exact fun h => Or.inr h
    · simp only [aremove, if_neg hk, keysOf, List.map_cons, List.mem_cons]
      rintro (h | h)
      · exact Or.inl h
      · exact Or.inr (ih h)

theorem keys_nodup_aremove {α : Type} {m : List (String × α)} (k : String)
    (h : (keysOf m).Nodup) : (keysOf (aremove k m)).Nodup := by
  induction m with
  | nil => simpa [aremove] using h
  | cons p t ih =>
    obtain ⟨k', v'⟩ := p
    simp only [keysOf, List.map_cons, List.nodup_cons] at h
    by_cases hk : k' = k
    · subst hk
      simpa [aremove, keysOf] using h.2
    · simp only [aremove, if_neg hk, keysOf, List.map_cons, List.nodup_cons]
      exact ⟨fun hm => h.1 (mem_keys_aremove t k' k hm), ih h.2⟩

theorem countKey_eq_zero {α : Type} {m : List (String × α)} {k : String}
    (h : alookup m k = none) : countKey m k = 0 := by
  rw [countKey, List.countP_eq_zero]
  intro p hp
  simpa using forall_of_alookup_eq_none h p hp

theorem countKey_eq_one {α : Type} {m : List (String × α)} {k : String} {v : α}
    (hn : (keysOf m).Nodup) (h : alookup m k = some v) : countKey m k = 1 := by
  induction m with
  | nil => simp [alookup] at h
  | cons p t ih =>
    obtain ⟨k', v'⟩ := p
    simp only [keysOf, List.map_cons, List.nodup_cons] at hn
    by_cases hk : k' = k
    · subst hk
      have h0 : countKey t k' = 0 :=
        countKey_eq_zero (alookup_eq_none_of_not_mem_keys hn.1)
      simp [countKey, List.countP_cons] at h0 ⊢
      exact h0
    · simp only [alookup, if_neg hk] at h
      have h1 := ih hn.2 h
      simp [countKey, List.countP_cons, hk] at h1 ⊢
      exact h1

theorem any_perm {α : Type} {l l' : List α} (h : l.Perm l') (p : α → Bool) :
    l.any p = l'.any p := by
  cases hb : l'.any p
  · cases hb' : l.any p
    · rfl
    · exfalso
      rw [List.any_eq_true] at hb'
      obtain ⟨x, hx, hpx⟩ := hb'
      have : l'.any p = true := List.any_eq_true.mpr ⟨x, h.subset hx, hpx⟩
      rw [hb] at this
      exact Bool.false_ne_true this
  · rw [List.any_eq_true] at hb ⊢
    obtain ⟨x, hx, hpx⟩ := hb
    exact ⟨x, h.symm.subset hx, hpx⟩

/-!
## String helpers

Python string operations used by the source, specialised to the concrete
arguments that appear there (`.replace("-", "_")`, `.split(":")`,
`.split(",")`, `",".join(...)`).  They are written over `List Char` so that
witnesses evaluate inside the kernel.
-/

/-- Python `s.replace("-", "_")` (single-character pattern). -/
def replaceDash (s : String) : String :=
  String.mk (s.data.map (fun c => if c = '-' then '_' else c))

/-- Python `s.split(c)` for a single-character separator, on char lists. -/
def splitCharList (c : Char) : List Char → List (List Char)
  | [] => [[]]
  | x :: t =>
    let r := splitCharList c t
    if x = c then [] :: r
    else
      match r with
      | [] => [[x]]
      | h :: t' => (x :: h) :: t'

/-- Python `s.split(c)` for a single-character separator. -/
def splitChar (c : Char) (s : String) : List String :=
  (splitCharList c s.data).map String.mk

/-- Python `sep.join(l)`. -/
def joinWith (sep : String) : List String → String
  | [] => ""
  | x :: t => t.foldl (fun acc y => acc ++ sep ++ y) x

/-- Python `endpoint.split(":")[0]`: the host part of a colon-delimited endpoint. -/
def hostPart (ep : String) : String :=
  (splitChar ':' ep).headD ""

/-- Python `endpoint.split(":")[1]`: the port part of a colon-delimited endpoint.
(Python raises IndexError when no colon is present; no claim exercises that
case, so the total default "" stands in for the raise.) -/
def portPart (ep : String) : String :=
  (splitChar ':' ep).getD 1 ""

/-!
## Errors, databag values and external calls
-/

/-- Python exceptions that the embedded handlers can raise or catch. -/
inductive PyErr where
  | attributeError
  | fileNotFound
  | sqlError
deriving DecidableEq, Repr

/-- A value placed into a databag-update dict before `update_databags` coerces
it with `str`: either a Python string or Python `None`. -/
inductive PyVal where
  | pstr (s : String)
  | pnone
deriving DecidableEq, Repr

/-- Python `str(item)` as applied by `update_databags` to databag values. -/
def pyStr : PyVal → String
  | .pstr s => s
  | .pnone => "None"

/-- External side effects issued by the handlers, in issue order.
`createUser` / `createDatabase` / `deleteUser` are the postgres role and
database mutations; `installAuthFunction` / `removeAuthFunction` run the SQL
auth-function scripts against the backend. -/
inductive ExtCall where
  | createUser (name pw : String) (admin : Bool)
  | createDatabase (name owner : String)
  | deleteUser (name : String)
  | installAuthFunction (dbs : List String)
  | removeAuthFunction (dbs : List String)
  | generatePassword
  | renderAuthFile (content : String)
  | deleteFile (path : String)
  | renderCfg
  | readVersion
  | updateClientConnInfo
deriving DecidableEq, Repr

/-- The external calls that mutate backend roles/databases or the auth
function — the calls claim C2 says a non-leader never issues. -/
def ExtCall.isBackendMutation : ExtCall → Bool
  | .createUser _ _ _ => true
  | .createDatabase _ _ => true
  | .deleteUser _ => true
  | .installAuthFunction _ => true
  | .removeAuthFunction _ => true
  | _ => false

/-!
## Constants (src/constants.py is not part of src/)

Modelled from the spec: `PG` is the backend root database alias
("the backend's root database"), `PGB` the pooler's own database name,
`PGB_DIR` the pooler's state directory and `AUTH_FILE_PATH` the credential
file consumed by the pooler (`userlist.txt`).
-/

def PG : String := "postgres"

def PGB : String := "pgbouncer"

def PGB_DIR : String := "/var/lib/postgresql/pgbouncer"

def AUTH_FILE_PATH : String := PGB_DIR ++ "/userlist.txt"

/-!
## Config Document (the pgb.PgbConfig model)

From the spec's data model (the pgb helper library is not under src/):
`databases` maps a route alias to a DatabaseRoute `{host(s), dbname, port,
auth_user}`, `users` maps a username to its admin flag, and `pgbouncer` is
the flat settings section.  The route dict literals in
`DbProvides.update_postgres_endpoints` fix the route fields.
-/

structure Route where
  host : String
  dbname : String
  port : String
  auth_user : Option String
deriving DecidableEq, Repr

structure PgbConfig where
  databases : List (String × Route)
  users : List (String × Bool)
  pgbouncer : List (String × String)
deriving DecidableEq, Repr

/-- Modelled from the spec: `PgbConfig.add_user` of the pgb helper library
(not under src/) inserts a user entry keyed by username with its admin flag. -/
def PgbConfig.add_user (cfg : PgbConfig) (user : String) (admin : Bool) : PgbConfig :=
  { cfg with users := ainsert user admin cfg.users }

/-- Modelled from the spec: `PgbConfig.remove_user` of the pgb helper library
(not under src/) drops the user's entry from the user map. -/
def PgbConfig.remove_user (cfg : PgbConfig) (user : String) : PgbConfig :=
  { cfg with users := aremove user cfg.users }

/-!
## Relation and charm state
-/

/-- One client relation ("db" or "db-admin" flavor) as the handlers see it:
the relation id, the remote application and its databags, and this
pgbouncer side's own unit- and app-scoped databags. -/
structure RelationData where
  rid : Nat
  remoteApp : String
  remoteUnitName : String
  unitDatabag : List (String × String)
  appDatabag : List (String × String)
  remoteAppDatabag : List (String × String)
  remoteUnitDatabag : List (String × String)
deriving DecidableEq, Repr

/-- The per-process state the handlers read and write.  `backendDatabag` is
the remote application databag of the backend-database relation (`none` when
that relation is absent).  `backendReady` models `charm.check_status()`
returning ActiveStatus (charm code outside src/; per the spec the join/change
handlers only proceed when the backend link is Ready).  `backendSQLOk` models
whether SQL calls against the backend driver succeed.  `configExists` is
whether the Config Document file has been created (`read_pgb_config` raises
FileNotFoundError otherwise). -/
structure CharmState where
  appName : String
  modelName : String
  isLeader : Bool
  backendReady : Bool
  backendSQLOk : Bool
  configExists : Bool
  listenPort : String
  unitIP : String
  pgVersion : String
  config : PgbConfig
  peersAppDatabag : List (String × String)
  backendDatabag : Option (List (String × String))
  dbRelations : List RelationData
  dbAdminRelations : List RelationData
deriving DecidableEq, Repr

/-- `BackendDatabaseRequires.postgres_databag`: the remote app databag of the
backend relation, or Python `None` when the relation is absent. -/
def postgres_databag (st : CharmState) : Option (List (String × String)) :=
  st.backendDatabag

/-- `BackendDatabaseRequires.auth_user`: reads
`self.postgres_databag.get("username")`.  When the backend relation is absent
`postgres_databag` is `None`, so the attribute access raises AttributeError;
when the username field is missing the property returns `None`; otherwise it
returns `f"pgbouncer_auth_{username}".replace("-", "_")`. -/
def backend_auth_user (st : CharmState) : Except PyErr (Option String) :=
  match st.backendDatabag with
  | none => .error .attributeError
  | some bag =>
    match alookup bag "username" with
    | none => .ok none
    | some u => .ok (some (replaceDash ("pgbouncer_auth_" ++ u)))

/-- `BackendDatabaseRequires.postgres` is not `None`: the backend relation
exists and its databag holds endpoints, username and password. -/
def backend_postgres_available (st : CharmState) : Bool :=
  match st.backendDatabag with
  | none => false
  | some bag =>
    (alookup bag "endpoints").isSome && (alookup bag "username").isSome &&
      (alookup bag "password").isSome

/-- Modelled from the spec: `BackendDatabaseRequires.get_read_only_endpoints`
(defined outside src/) returns the backend's read-replica endpoint set,
parsed from the comma-separated "read-only-endpoints" field of the backend
databag; an absent or empty field yields no endpoints. -/
def get_read_only_endpoints (st : CharmState) : List String :=
  match st.backendDatabag with
  | none => []
  | some bag =>
    match alookup bag "read-only-endpoints" with
    | none => []
    | some s => (splitChar ',' s).filter (fun e => e ≠ "")

/-- Modelled from the spec: `pgb.get_hashed_password` (helper library outside
src/) maps a username and plaintext password to the password hash stored in
the credential file.  The hash algorithm itself is external; the claims only
require a deterministic function. -/
def get_hashed_password (user pw : String) : String :=
  "md5" ++ user ++ ":" ++ pw

/-!
## DbProvides helpers (src/relations/db.py)
-/

/-- `DbProvides._generate_username`:
`f"{self.charm.app.name}_user_{relation_id}_{model_name}".replace("-", "_")`.
Note that `app_name` is this charm's own application name, not the remote
(requesting) application's. -/
def generate_username (st : CharmState) (relId : Nat) : String :=
  replaceDash (st.appName ++ "_user_" ++ toString relId ++ "_" ++ st.modelName)

/-- The relation flavor name chosen in `DbProvides.__init__`. -/
def relation_flavor (admin : Bool) : String :=
  if admin then "db-admin" else "db"

/-- The breaking-flag key used by `DbProvides._on_relation_broken`:
`f"{self.relation_name}-{relation_id}-relation-breaking"`. -/
def break_flag_key (admin : Bool) (relId : Nat) : String :=
  relation_flavor admin ++ "-" ++ toString relId ++ "-relation-breaking"

/-- Apply an update dict to one databag: each value is coerced with `str`
and inserted (`dict.update`). -/
def applyUpdates (ups : List (String × PyVal)) (bag : List (String × String)) :
    List (String × String) :=
  ups.foldl (fun b kv => ainsert kv.1 (pyStr kv.2) b) bag

/-- `DbProvides.update_databags`: writes the str-coerced updates into the
unit databag and, on the leader, also into the app databag
(`get_databags` returns `[unit]` or `[unit, app]`). -/
def update_databags (leader : Bool) (rel : RelationData) (ups : List (String × PyVal)) :
    RelationData :=
  { rel with
    unitDatabag := applyUpdates ups rel.unitDatabag
    appDatabag := if leader then applyUpdates ups rel.appDatabag else rel.appDatabag }

/-- `pgb.parse_dict_to_kv_string` applied to `master_dbconnstr` in
`DbProvides.update_connection_info` — space-joined `key=value` tokens in the
dict's insertion order (host, dbname, port, user, password,
fallback_application_name), per the spec's connection-string format. -/
def master_connstr (database port user password appname : String) : String :=
  "host=localhost dbname=" ++ database ++ " port=" ++ port ++ " user=" ++ user ++
    " password=" ++ password ++ " fallback_application_name=" ++ appname

/-- `DbProvides.update_connection_info`: reads database/user/password from the
unit databag; when any is missing the update is skipped, otherwise the master
connection string, port and host are written to the writable databags.
`get_external_app` yields the remote application's name. -/
def update_connection_info (st : CharmState) (rel : RelationData) (port : String) :
    RelationData :=
  match alookup rel.unitDatabag "database", alookup rel.unitDatabag "user",
      alookup rel.unitDatabag "password" with
  | some d, some u, some pw =>
    update_databags st.isLeader rel
      [("master", .pstr (master_connstr d port u pw rel.remoteApp)),
       ("port", .pstr port),
       ("host", .pstr "localhost")]
  | _, _, _ => rel

/-- `DbProvides.update_postgres_endpoints`: recomputes this relation's routes
in the Config Document from the backend databag.  Returns the new document,
or the Python exception the source would raise: AttributeError when the
backend relation is absent (`postgres_databag` is `None` at
`.get("endpoints")`) or when the endpoints field is missing
(`None.split(":")`), FileNotFoundError when the config file does not exist.
Skips (returning the document unchanged) when the databag has no database. -/
def upe_auth_user (bag : List (String × String)) : Option String :=
  match alookup bag "username" with
  | none => none
  | some u => some (replaceDash ("pgbouncer_auth_" ++ u))

/-- The primary route dict literal of `update_postgres_endpoints` (line 359):
`{host, dbname: database, port, auth_user}` from the backend endpoint. -/
def upe_route_main (database ep : String) (authu : Option String) : Route :=
  ⟨hostPart ep, database, portPart ep, authu⟩

/-- The standby route dict literal (line 368): host is the comma-joined list
of replica hosts, port comes from the first replica endpoint. -/
def upe_route_standby (database : String) (ro : List String) (authu : Option String) :
    Route :=
  ⟨joinWith "," (ro.map hostPart), database, portPart (ro.headD ""), authu⟩

/-- The admin (postgres root) route dict literal (line 379). -/
def upe_route_pg (ep : String) (authu : Option String) : Route :=
  ⟨hostPart ep, PG, portPart ep, authu⟩

/-- The `cfg["databases"]` mutations of `update_postgres_endpoints`
(lines 359-384): set the database's route; set the `{database}_standby` route
when replicas exist, else pop it; on admin relations also set the postgres
root route. -/
def upe_databases (dbs : List (String × Route)) (database : String)
    (bag : List (String × String)) (ep : String) (admin : Bool) (ro : List String) :
    List (String × Route) :=
  let authu := upe_auth_user bag
  let dbs1 := ainsert database (upe_route_main database ep authu) dbs
  let dbs2 :=
    if ro.length > 0 then
      ainsert (database ++ "_standby") (upe_route_standby database ro authu) dbs1
    else aremove (database ++ "_standby") dbs1
  if admin then ainsert PG (upe_route_pg ep authu) dbs2 else dbs2

def update_postgres_endpoints (st : CharmState) (rel : RelationData) (admin : Bool) :
    Except PyErr PgbConfig :=
  match alookup rel.unitDatabag "database" with
  | none => .ok st.config
  | some database =>
    match st.backendDatabag with
    | none => .error .attributeError
    | some bag =>
      if st.configExists = false then .error .fileNotFound
      else
        match alookup bag "endpoints" with
        | none => .error .attributeError
        | some ep =>
          let dbs :=
            upe_databases st.config.databases database bag ep admin
              (get_read_only_endpoints st)
          .ok { st.config with databases := dbs }

/-!
## Handler results
-/

/-- The outcome of one handler invocation: the new process state, the
(possibly updated) event relation snapshot, the external calls issued in
order, whether `event.defer()` was called, whether `event.fail()` was called,
and the Python exception propagating out of the handler, if any (the state
and calls then reflect the point of the raise). -/
structure HRes where
  st : CharmState
  evRel : Option RelationData
  calls : List ExtCall
  deferred : Bool
  failed : Bool
  raised : Option PyErr
deriving DecidableEq, Repr

/-!
## DbProvides handlers (src/relations/db.py)
-/

/-- `DbProvides._on_relation_joined`.  `freshPw` is the random password
`pgb.generate_password()` would produce when the leader calls it. -/
def on_db_joined (st : CharmState) (admin : Bool) (rel : RelationData) (freshPw : String) :
    HRes :=
  if st.backendReady = false then ⟨st, some rel, [], true, false, none⟩
  else
    let dbA := alookup rel.remoteAppDatabag "database"
    let dbU := alookup rel.remoteUnitDatabag "database"
    let database? : Option String :=
      if dbA.getD "" ≠ "" then dbA else if dbU.getD "" ≠ "" then dbU else none
    match database? with
    | none => ⟨st, some rel, [], true, false, none⟩
    | some database =>
      if ((alookup rel.remoteAppDatabag "extensions").isSome ||
          (alookup rel.remoteUnitDatabag "extensions").isSome) = true then
        ⟨st, some rel, [], false, true, none⟩
      else
        let user := generate_username st rel.rid
        if st.isLeader = true then
          let rel1 := update_databags true rel
            [("user", .pstr user), ("password", .pstr freshPw), ("database", .pstr database)]
          let calls0 := [ExtCall.generatePassword, ExtCall.createUser user freshPw admin,
                         ExtCall.createDatabase database user]
          if st.backendSQLOk = false then
            ⟨st, some rel1, calls0, false, true, none⟩
          else
            let calls1 := calls0 ++ [ExtCall.installAuthFunction [database]]
            let st1 := { st with peersAppDatabag := ainsert user freshPw st.peersAppDatabag }
            if st.configExists = false then
              ⟨st1, some rel1, calls1, false, false, some .fileNotFound⟩
            else
              let cfg1 := PgbConfig.add_user st.config user admin
              ⟨{ st1 with config := cfg1 }, some rel1, calls1 ++ [.renderCfg],
                false, false, none⟩
        else
          let pwOpt := alookup st.peersAppDatabag user
          let deferredPw := pwOpt.getD "" = ""
          let pwVal : PyVal :=
            match pwOpt with
            | none => PyVal.pnone
            | some s => PyVal.pstr s
          let rel1 := update_databags false rel
            [("user", .pstr user), ("password", pwVal), ("database", .pstr database)]
          ⟨st, some rel1, [], deferredPw, false, none⟩

/-- `DbProvides.get_allowed_subnets` for the single-remote-unit relation
snapshot: the sorted comma-joined set of the remote unit's egress subnets. -/
def get_allowed_subnets (rel : RelationData) : String :=
  let raw := (alookup rel.remoteUnitDatabag "egress-subnets").getD ""
  let parts := ((splitChar ',' raw).map String.trimLeft).map String.trimRight
  let parts := parts.filter (fun s => s ≠ "")
  let dedup := parts.foldl (fun acc x => if acc.contains x then acc else acc ++ [x]) []
  joinWith "," (dedup.mergeSort (fun a b => a ≤ b))

/-- `DbProvides.get_allowed_units` for the single-remote-unit relation
snapshot: the remote unit's name. -/
def get_allowed_units (rel : RelationData) : String :=
  rel.remoteUnitName

/-- `DbProvides._get_state`: "master" on the leader, else "standby". -/
def get_unit_state (st : CharmState) : String :=
  if st.isLeader = true then "master" else "standby"

/-- `DbProvides._on_relation_changed`. -/
def on_db_changed (st : CharmState) (admin : Bool) (rel : RelationData) : HRes :=
  if st.backendReady = false then ⟨st, some rel, [], true, false, none⟩
  else
    match alookup rel.unitDatabag "database", alookup rel.unitDatabag "user",
        alookup rel.unitDatabag "password" with
    | some database, some user, some password =>
      let rel1 := update_connection_info st rel st.listenPort
      match update_postgres_endpoints st rel1 admin with
      | .error e => ⟨st, some rel1, [], false, false, some e⟩
      | .ok cfg1 =>
        let st1 := { st with config := cfg1, configExists := true }
        if backend_postgres_available st = false then
          ⟨st1, some rel1, [.renderCfg], false, false, some .attributeError⟩
        else
          let rel2 := update_databags st.isLeader rel1
            [("allowed-subnets", .pstr (get_allowed_subnets rel1)),
             ("allowed-units", .pstr (get_allowed_units rel1)),
             ("version", .pstr st.pgVersion),
             ("host", .pstr st.unitIP),
             ("user", .pstr user),
             ("password", .pstr password),
             ("database", .pstr database),
             ("state", .pstr (get_unit_state st))]
          ⟨st1, some rel2, [.renderCfg, .readVersion], false, false, none⟩
    | _, _, _ => ⟨st, some rel, [], true, false, none⟩

/-- `DbProvides._on_relation_departed`.  After republishing allowed-units the
handler evaluates, on the leader when the departing app is this charm's own
application, `self.relation.id` — but `DbProvides` never defines a `relation`
attribute (its `__init__` sets only `relation_name`, `charm` and `admin`, and
the ops `Object` base class provides no such attribute either), so that
attribute access raises AttributeError before the breaking flag can be
written.  (`_on_relation_broken` reads the flag keyed by the *event's*
relation id, which this write was clearly intended to match.) -/
def on_db_departed (st : CharmState) (_admin : Bool) (rel : RelationData)
    (departingAppIsSelf : Bool) : HRes :=
  let rel1 := update_databags st.isLeader rel
    [("allowed-units", .pstr (get_allowed_units rel))]
  if (departingAppIsSelf && st.isLeader) = true then
    ⟨st, some rel1, [], false, false, some .attributeError⟩
  else
    ⟨st, some rel1, [], false, false, none⟩

/-- The `for relation in relations:` scan of `DbProvides._on_relation_broken`:
delete the database unless some *other* relation's unit databag names the
same database (first match breaks the loop). -/
def scan_delete_db (evId : Nat) (database : String) : List RelationData → Bool
  | [] => true
  | r :: rest =>
    if r.rid = evId then scan_delete_db evId database rest
    else if alookup r.unitDatabag "database" = some database then false
    else scan_delete_db evId database rest

/-- `DbProvides._on_relation_broken`. -/
def on_db_broken (st : CharmState) (admin : Bool) (rel : RelationData) : HRes :=
  if st.isLeader = false then ⟨st, some rel, [.updateClientConnInfo], false, false, none⟩
  else
    let flag := break_flag_key admin rel.rid
    if (alookup st.peersAppDatabag flag).getD "" = "" then
      let rel1 := update_connection_info st rel st.listenPort
      ⟨st, some rel1, [], false, false, none⟩
    else
      let st1 := { st with peersAppDatabag := aremove flag st.peersAppDatabag }
      let user? := alookup rel.unitDatabag "user"
      let database? := alookup rel.unitDatabag "database"
      if (!backend_postgres_available st || user?.isNone || database?.isNone) = true then
        ⟨st1, some rel, [], true, false, none⟩
      else
        if st.configExists = false then
          ⟨st1, some rel, [], false, false, some .fileNotFound⟩
        else
          let user := user?.getD ""
          let database := database?.getD ""
          let rels := st.dbRelations ++ st.dbAdminRelations
          let delete_db := scan_delete_db rel.rid database rels
          let dbs1 :=
            if delete_db then
              aremove (database ++ "_standby") (aremove database st.config.databases)
            else st.config.databases
          let calls1 := if delete_db then [ExtCall.removeAuthFunction [database]] else []
          let cfg1 := { st.config with databases := dbs1, users := aremove user st.config.users }
          let st2 := { st1 with
            config := cfg1
            peersAppDatabag := aremove user st1.peersAppDatabag }
          ⟨st2, some rel, calls1 ++ [.renderCfg, .deleteUser user], false, false, none⟩

/-!
## BackendDatabaseRequires handlers (src/relations/backend_database.py)
-/

/-- Modelled from the spec: the charm-level `update_postgres_endpoints`
(defined outside src/) republishes the endpoint topology into the Config
Document and reloads the pooler; it performs no backend SQL mutation.  The
per-relation recomputation itself is `update_postgres_endpoints` above. -/
def charm_update_postgres_endpoints (st : CharmState) : CharmState × List ExtCall :=
  (st, [.renderCfg])

/-- `BackendDatabaseRequires._on_database_created`. -/
def on_backend_created (st : CharmState) (username freshPw : String) : HRes :=
  if st.isLeader = false then ⟨st, none, [], false, false, none⟩
  else if backend_postgres_available st = false then ⟨st, none, [], true, false, none⟩
  else
    match backend_auth_user st with
    | .error e => ⟨st, none, [], false, false, some e⟩
    | .ok none => ⟨st, none, [], false, false, some .attributeError⟩
    | .ok (some authu) =>
      let calls0 := [ExtCall.generatePassword, ExtCall.createUser authu freshPw true,
                     ExtCall.installAuthFunction [PGB, PG],
                     ExtCall.renderAuthFile
                       ("\"" ++ authu ++ "\" \"" ++ get_hashed_password authu freshPw ++ "\"")]
      if st.backendSQLOk = false then ⟨st, none, calls0, false, false, some .sqlError⟩
      else if st.configExists = false then
        ⟨st, none, calls0, false, false, some .fileNotFound⟩
      else
        let cfg1 := PgbConfig.add_user st.config username true
        let settings1 :=
          ainsert "auth_file" AUTH_FILE_PATH
            (ainsert "auth_query"
              ("SELECT username, password FROM " ++ authu ++ ".get_auth($1)")
              cfg1.pgbouncer)
        let cfg2 := { cfg1 with pgbouncer := settings1 }
        let (st2, callsE) := charm_update_postgres_endpoints { st with config := cfg2 }
        ⟨st2, none, calls0 ++ [.renderCfg] ++ callsE, false, false, none⟩

/-- `BackendDatabaseRequires._on_endpoints_changed` (also observed for
read-only-endpoints-changed). -/
def on_backend_endpoints_changed (st : CharmState) : HRes :=
  let (st1, calls) := charm_update_postgres_endpoints st
  ⟨st1, none, calls, false, false, none⟩

/-- `BackendDatabaseRequires._on_relation_departed`. -/
def on_backend_departed (st : CharmState) (departingUnitIsSelf : Bool) : HRes :=
  if (!departingUnitIsSelf || !st.isLeader) = true then ⟨st, none, [], false, false, none⟩
  else if backend_postgres_available st = false then
    ⟨st, none, [], false, false, some .attributeError⟩
  else
    match backend_auth_user st with
    | .ok (some authu) =>
      if st.backendSQLOk = false then
        ⟨st, none, [ExtCall.removeAuthFunction [PGB, PG]], false, true, none⟩
      else
        ⟨st, none, [ExtCall.removeAuthFunction [PGB, PG], ExtCall.deleteUser authu],
          false, false, none⟩
    | _ => ⟨st, none, [], false, false, some .attributeError⟩

/-- `BackendDatabaseRequires._on_relation_broken`: defer when the Config
Document cannot be read; otherwise drop the backend user entry, pop
`auth_user` and `auth_query` from the settings section (but not `auth_file`),
re-render, and delete the credential file.  `self.postgres.user` raises
AttributeError when the backend postgres view is unavailable. -/
def on_backend_broken (st : CharmState) : HRes :=
  if st.configExists = false then ⟨st, none, [], true, false, none⟩
  else
    match st.backendDatabag with
    | none => ⟨st, none, [], false, false, some .attributeError⟩
    | some bag =>
      match alookup bag "endpoints", alookup bag "username", alookup bag "password" with
      | some _, some user, some _ =>
        let cfg1 := PgbConfig.remove_user st.config user
        let settings1 := aremove "auth_query" (aremove "auth_user" cfg1.pgbouncer)
        let cfg2 := { cfg1 with pgbouncer := settings1 }
        ⟨{ st with config := cfg2 }, none,
          [.renderCfg, .deleteFile (PGB_DIR ++ "/userlist.txt")], false, false, none⟩
      | _, _, _ => ⟨st, none, [], false, false, some .attributeError⟩

/-!
## Notifications and dispatch
-/

/-- The lifecycle notifications of both controllers.  Client events carry the
relation snapshot the runtime would hand to the handler; `departingAppIsSelf`
and `departingUnitIsSelf` record the identity comparisons the handlers make. -/
inductive Event where
  | dbJoined (admin : Bool) (rel : RelationData) (freshPw : String)
  | dbChanged (admin : Bool) (rel : RelationData)
  | dbDeparted (admin : Bool) (rel : RelationData) (departingAppIsSelf : Bool)
  | dbBroken (admin : Bool) (rel : RelationData)
  | backendCreated (username freshPw : String)
  | backendEndpointsChanged
  | backendDeparted (departingUnitIsSelf : Bool)
  | backendBroken
deriving Repr

/-- Deliver one notification to its handler. -/
def dispatch (st : CharmState) : Event → HRes
  | .dbJoined admin rel pw => on_db_joined st admin rel pw
  | .dbChanged admin rel => on_db_changed st admin rel
  | .dbDeparted admin rel dSelf => on_db_departed st admin rel dSelf
  | .dbBroken admin rel => on_db_broken st admin rel
  | .backendCreated u pw => on_backend_created st u pw
  | .backendEndpointsChanged => on_backend_endpoints_changed st
  | .backendDeparted dSelf => on_backend_departed st dSelf
  | .backendBroken => on_backend_broken st

/-- Deliver a sequence of notifications, threading the state and
concatenating the external-call traces. -/
def run (st : CharmState) : List Event → CharmState × List ExtCall
  | [] => (st, [])
  | e :: rest =>
    let r := dispatch st e
    let p := run r.st rest
    (p.1, r.calls ++ p.2)

/-!
## Leader-only mutation (claim C2): per-handler lemmas
-/

theorem on_db_joined_nonleader (st : CharmState) (admin : Bool) (rel : RelationData)
    (pw : String) (h : st.isLeader = false) :
    (on_db_joined st admin rel pw).st = st ∧ (on_db_joined st admin rel pw).calls = [] := by
  unfold on_db_joined
  dsimp only
  repeat' split
  all_goals simp_all

theorem on_db_changed_leader_inv (st : CharmState) (admin : Bool) (rel : RelationData) :
    (on_db_changed st admin rel).st.isLeader = st.isLeader ∧
      ∀ c ∈ (on_db_changed st admin rel).calls, c.isBackendMutation = false := by
  unfold on_db_changed
  dsimp only
  repeat' split
  all_goals refine ⟨rfl, ?_⟩
  all_goals intro c hc
  all_goals simp at hc
  all_goals first
    | (subst hc; decide)
    | (rcases hc with h1 | h1 <;> subst h1 <;> decide)

theorem on_db_departed_inv (st : CharmState) (admin : Bool) (rel : RelationData)
    (dSelf : Bool) :
    (on_db_departed st admin rel dSelf).st = st ∧
      (on_db_departed st admin rel dSelf).calls = [] := by
  unfold on_db_departed
  split <;> exact ⟨rfl, rfl⟩

theorem on_db_broken_nonleader (st : CharmState) (admin : Bool) (rel : RelationData)
    (h : st.isLeader = false) :
    on_db_broken st admin rel =
      ⟨st, some rel, [.updateClientConnInfo], false, false, none⟩ := by
  unfold on_db_broken
  simp [h]

theorem on_backend_created_nonleader (st : CharmState) (u pw : String)
    (h : st.isLeader = false) :
    on_backend_created st u pw = ⟨st, none, [], false, false, none⟩ := by
  unfold on_backend_created
  simp [h]

theorem on_backend_endpoints_changed_eq (st : CharmState) :
    on_backend_endpoints_changed st = ⟨st, none, [.renderCfg], false, false, none⟩ := rfl

theorem on_backend_departed_nonleader (st : CharmState) (dSelf : Bool)
    (h : st.isLeader = false) :
    on_backend_departed st dSelf = ⟨st, none, [], false, false, none⟩ := by
  unfold on_backend_departed
  simp [h]

theorem on_backend_broken_inv (st : CharmState) :
    (on_backend_broken st).st.isLeader = st.isLeader ∧
      ∀ c ∈ (on_backend_broken st).calls, c.isBackendMutation = false := by
  unfold on_backend_broken
  dsimp only
  repeat' split
  all_goals refine ⟨rfl, ?_⟩
  all_goals intro c hc
  all_goals simp at hc
  all_goals first
    | (subst hc; decide)
    | (rcases hc with h1 | h1 <;> subst h1 <;> decide)

theorem dispatch_nonleader (st : CharmState) (e : Event) (h : st.isLeader = false) :
    (dispatch st e).st.isLeader = false ∧
      ∀ c ∈ (dispatch st e).calls, c.isBackendMutation = false := by
  cases e with
  | dbJoined admin rel pw =>
    obtain ⟨h1, h2⟩ := on_db_joined_nonleader st admin rel pw h
    exact ⟨by simp [dispatch, h1, h], by simp [dispatch, h2]⟩
  | dbChanged admin rel =>
    obtain ⟨h1, h2⟩ := on_db_changed_leader_inv st admin rel
    exact ⟨by simp [dispatch, h1, h], by simpa [dispatch] using h2⟩
  | dbDeparted admin rel dSelf =>
    obtain ⟨h1, h2⟩ := on_db_departed_inv st admin rel dSelf
    exact ⟨by simp [dispatch, h1, h], by simp [dispatch, h2]⟩
  | dbBroken admin rel =>
    rw [dispatch, on_db_broken_nonleader st admin rel h]
    exact ⟨h, by intro c hc; simp at hc; simp [hc, ExtCall.isBackendMutation]⟩
  | backendCreated u pw =>
    rw [dispatch, on_backend_created_nonleader st u pw h]
    exact ⟨h, by simp⟩
  | backendEndpointsChanged =>
    rw [dispatch, on_backend_endpoints_changed_eq st]
    exact ⟨h, by intro c hc; simp at hc; simp [hc, ExtCall.isBackendMutation]⟩
  | backendDeparted dSelf =>
    rw [dispatch, on_backend_departed_nonleader st dSelf h]
    exact ⟨h, by simp⟩
  | backendBroken =>
    obtain ⟨h1, h2⟩ := on_backend_broken_inv st
    exact ⟨by simp [dispatch, h1, h], by simpa [dispatch] using h2⟩

/-- **C2** For every notification sequence handled by a process that is not
the elected leader, no backend role/database creation or deletion call
(create_user, create_database, delete_user) and no auth-function
install/removal is ever issued: the collected external-call trace of `run`
contains no backend mutation. -/
theorem nonleader_no_backend_mutation (st : CharmState) (h : st.isLeader = false)
    (evs : List Event) :
    ∀ c ∈ (run st evs).2, c.isBackendMutation = false := by
  induction evs generalizing st with
  | nil => intro c hc; simp [run] at hc
  | cons e rest ih =>
    intro c hc
    obtain ⟨h1, h2⟩ := dispatch_nonleader st e h
    simp only [run, List.mem_append] at hc
    rcases hc with hc | hc
    · exact h2 c hc
    · exact ih (dispatch st e).st h1 c hc

/-!
## Standby alias correctness (claim C3)
-/

theorem string_eq_empty_of_length_zero {s : String} (h : s.length = 0) : s = "" := by
  cases s with
  | mk data =>
    simp [String.length] at h
    simp [h]

theorem append_standby_ne_self (D : String) : D ++ "_standby" ≠ D := by
  intro h
  have hl := congrArg String.length h
  rw [String.length_append] at hl
  have h8 : ("_standby" : String).length = 8 := by decide
  omega

theorem append_standby_ne_postgres (D : String) : D ++ "_standby" ≠ PG := by
  intro h
  have hl := congrArg String.length h
  rw [String.length_append] at hl
  have h8 : ("_standby" : String).length = 8 := by decide
  have hp : PG.length = 8 := by decide
  have hD : D.length = 0 := by omega
  have hD2 : D = "" := string_eq_empty_of_length_zero hD
  subst hD2
  rw [show ("" ++ "_standby" : String) = "_standby" by rfl] at h
  exact absurd h (by decide)

theorem upe_databases_nodup (dbs : List (String × Route)) (database : String)
    (bag : List (String × String)) (ep : String) (admin : Bool) (ro : List String)
    (hnod : (keysOf dbs).Nodup) :
    (keysOf (upe_databases dbs database bag ep admin ro)).Nodup := by
  unfold upe_databases
  dsimp only
  split
  · split
    · exact keys_nodup_ainsert _ _ (keys_nodup_ainsert _ _ (keys_nodup_ainsert _ _ hnod))
    · exact keys_nodup_ainsert _ _ (keys_nodup_aremove _ (keys_nodup_ainsert _ _ hnod))
  · split
    · exact keys_nodup_ainsert _ _ (keys_nodup_ainsert _ _ hnod)
    · exact keys_nodup_aremove _ (keys_nodup_ainsert _ _ hnod)

theorem upe_databases_standby_none (dbs : List (String × Route)) (database : String)
    (bag : List (String × String)) (ep : String) (admin : Bool)
    (hnod : (keysOf dbs).Nodup) :
    alookup (upe_databases dbs database bag ep admin []) (database ++ "_standby") = none := by
  have h1 : alookup
      (aremove (database ++ "_standby")
        (ainsert database (upe_route_main database ep (upe_auth_user bag)) dbs))
      (database ++ "_standby") = none :=
    alookup_aremove_self (keys_nodup_ainsert _ _ hnod)
  unfold upe_databases
  dsimp only
  rw [if_neg (show ¬(([] : List String).length > 0) by simp)]
  split
  · rw [alookup_ainsert_ne _ _ (append_standby_ne_postgres database)]
    exact h1
  · exact h1

theorem upe_databases_standby_some (dbs : List (String × Route)) (database : String)
    (bag : List (String × String)) (ep : String) (admin : Bool) (ro : List String)
    (hro : ro ≠ []) :
    alookup (upe_databases dbs database bag ep admin ro) (database ++ "_standby") =
      some (upe_route_standby database ro (upe_auth_user bag)) := by
  unfold upe_databases
  dsimp only
  rw [if_pos (show ro.length > 0 by simpa [List.length_pos] using hro)]
  split
  · rw [alookup_ainsert_ne _ _ (append_standby_ne_postgres database)]
    exact alookup_ainsert_self _ _ _
  · exact alookup_ainsert_self _ _ _

/-- **C3** After `update_postgres_endpoints` runs for a client link whose
databag names database D (with the backend relation present, its endpoints
published, and the Config Document readable with duplicate-free route keys):
with zero read-only endpoints the resulting Config Document has no
`{D}_standby` alias (any pre-existing one is removed); with one or more, it
has exactly one `{D}_standby` alias whose host field is the comma-joined
replica host list. -/
theorem standby_alias_correct (st : CharmState) (rel : RelationData) (admin : Bool)
    (D : String) (bag : List (String × String)) (ep : String)
    (hD : alookup rel.unitDatabag "database" = some D)
    (hbag : st.backendDatabag = some bag)
    (hep : alookup bag "endpoints" = some ep)
    (hcfg : st.configExists = true)
    (hnod : (keysOf st.config.databases).Nodup) :
    ∃ cfg', update_postgres_endpoints st rel admin = .ok cfg' ∧
      (get_read_only_endpoints st = [] →
        alookup cfg'.databases (D ++ "_standby") = none ∧
          countKey cfg'.databases (D ++ "_standby") = 0) ∧
      (get_read_only_endpoints st ≠ [] →
        ∃ r, alookup cfg'.databases (D ++ "_standby") = some r ∧
          countKey cfg'.databases (D ++ "_standby") = 1 ∧
          r.host = joinWith "," ((get_read_only_endpoints st).map hostPart)) := by
  refine ⟨⟨upe_databases st.config.databases D bag ep admin (get_read_only_endpoints st),
    st.config.users, st.config.pgbouncer⟩, ?_, ?_, ?_⟩
  · simp [update_postgres_endpoints, hD, hbag, hcfg, hep]
  · intro h0
    rw [h0]
    have h1 := upe_databases_standby_none st.config.databases D bag ep admin hnod
    exact ⟨h1, countKey_eq_zero h1⟩
  · intro h0
    have h1 := upe_databases_standby_some st.config.databases D bag ep admin _ h0
    refine ⟨_, h1, countKey_eq_one (upe_databases_nodup _ _ _ _ _ _ hnod) h1, rfl⟩

/-!
## Idempotent endpoint republishing (claim C8)
-/

theorem upe_lookup_main (dbs : List (String × Route)) (database : String)
    (bag : List (String × String)) (ep : String) (admin : Bool) (ro : List String) :
    alookup (upe_databases dbs database bag ep admin ro) database =
      some (upe_route_main database ep (upe_auth_user bag)) := by
  have hne : database ≠ database ++ "_standby" :=
    fun h => append_standby_ne_self database h.symm
  have h2 : alookup
      (if ro.length > 0 then
        ainsert (database ++ "_standby") (upe_route_standby database ro (upe_auth_user bag))
          (ainsert database (upe_route_main database ep (upe_auth_user bag)) dbs)
      else
        aremove (database ++ "_standby")
          (ainsert database (upe_route_main database ep (upe_auth_user bag)) dbs))
      database = some (upe_route_main database ep (upe_auth_user bag)) := by
    split
    · rw [alookup_ainsert_ne _ _ hne]
      exact alookup_ainsert_self _ _ _
    · rw [alookup_aremove_ne _ hne]
      exact alookup_ainsert_self _ _ _
  unfold upe_databases
  dsimp only
  split
  · by_cases hPG : PG = database
    · subst hPG
      rw [alookup_ainsert_self]
      have : upe_route_pg ep (upe_auth_user bag) = upe_route_main PG ep (upe_auth_user bag) :=
        rfl
      rw [this]
    · rw [alookup_ainsert_ne _ _ (Ne.symm hPG)]
      exact h2
  · exact h2

theorem upe_lookup_pg (dbs : List (String × Route)) (database : String)
    (bag : List (String × String)) (ep : String) (ro : List String) :
    alookup (upe_databases dbs database bag ep true ro) PG =
      some (upe_route_pg ep (upe_auth_user bag)) := by
  unfold upe_databases
  dsimp only
  rw [if_pos rfl]
  exact alookup_ainsert_self _ _ _

theorem upe_databases_idem (dbs : List (String × Route)) (database : String)
    (bag : List (String × String)) (ep : String) (admin : Bool) (ro : List String)
    (hnod : (keysOf dbs).Nodup) :
    upe_databases (upe_databases dbs database bag ep admin ro) database bag ep admin ro =
      upe_databases dbs database bag ep admin ro := by
  have hmain := upe_lookup_main dbs database bag ep admin ro
  by_cases hro : ro = []
  · subst hro
    have hsn := upe_databases_standby_none dbs database bag ep admin hnod
    cases admin with
    | false =>
      generalize upe_databases dbs database bag ep false [] = u at hmain hsn ⊢
      unfold upe_databases
      dsimp only
      rw [ainsert_self hmain]
      try rw [if_neg (show ¬(([] : List String).length > 0) by simp)]
      rw [aremove_of_alookup_none hsn]
      try rw [if_neg (by simp)]
    | true =>
      have hpg := upe_lookup_pg dbs database bag ep []
      generalize upe_databases dbs database bag ep true [] = u at hmain hsn hpg ⊢
      unfold upe_databases
      dsimp only
      rw [ainsert_self hmain]
      try rw [if_neg (show ¬(([] : List String).length > 0) by simp)]
      rw [aremove_of_alookup_none hsn]
      try rw [if_pos rfl]
      exact ainsert_self hpg
  · have hlen : ro.length > 0 := by simpa [List.length_pos] using hro
    have hss := upe_databases_standby_some dbs database bag ep admin ro hro
    cases admin with
    | false =>
      generalize upe_databases dbs database bag ep false ro = u at hmain hss ⊢
      unfold upe_databases
      dsimp only
      rw [ainsert_self hmain, if_pos hlen, ainsert_self hss]
      try rw [if_neg (by simp)]
    | true =>
      have hpg := upe_lookup_pg dbs database bag ep ro
      generalize upe_databases dbs database bag ep true ro = u at hmain hss hpg ⊢
      unfold upe_databases
      dsimp only
      rw [ainsert_self hmain, if_pos hlen, ainsert_self hss]
      try rw [if_pos rfl]
      exact ainsert_self hpg

/-- **C8** Running `update_postgres_endpoints` twice in succession with
identical backend state (same backend databag — hence same endpoints,
read-only endpoints and auth user — same client databag database name and
same admin flag) yields the Config Document of a single run: the routes are
recomputed from scratch, so there is no alias drift or duplication. -/
theorem update_pe_ok_eq (st : CharmState) (rel : RelationData) (admin : Bool)
    (D : String) (bag : List (String × String)) (ep : String)
    (hD : alookup rel.unitDatabag "database" = some D)
    (hbag : st.backendDatabag = some bag)
    (hep : alookup bag "endpoints" = some ep)
    (hcfg : st.configExists = true) :
    update_postgres_endpoints st rel admin =
      .ok ⟨upe_databases st.config.databases D bag ep admin (get_read_only_endpoints st),
        st.config.users, st.config.pgbouncer⟩ := by
  simp [update_postgres_endpoints, hD, hbag, hep, hcfg]

theorem gro_eq_of_backend_eq (st' st : CharmState)
    (h : st'.backendDatabag = st.backendDatabag) :
    get_read_only_endpoints st' = get_read_only_endpoints st := by
  unfold get_read_only_endpoints
  rw [h]

theorem update_postgres_endpoints_idem (st : CharmState) (rel : RelationData)
    (admin : Bool) (cfg1 : PgbConfig)
    (hnod : (keysOf st.config.databases).Nodup)
    (h1 : update_postgres_endpoints st rel admin = .ok cfg1) :
    update_postgres_endpoints { st with config := cfg1 } rel admin = .ok cfg1 := by
  cases hD : alookup rel.unitDatabag "database" with
  | none =>
    have e1 : update_postgres_endpoints st rel admin = .ok st.config := by
      simp [update_postgres_endpoints, hD]
    rw [e1] at h1
    have hc : st.config = cfg1 := by simpa using h1
    have e2 : update_postgres_endpoints { st with config := cfg1 } rel admin = .ok cfg1 := by
      simp [update_postgres_endpoints, hD]
    exact e2
  | some D =>
    cases hbag : st.backendDatabag with
    | none =>
      exfalso
      have e1 : update_postgres_endpoints st rel admin = .error .attributeError := by
        simp [update_postgres_endpoints, hD, hbag]
      rw [e1] at h1
      exact absurd h1 (by simp)
    | some bag =>
      by_cases hcfg : st.configExists = true
      · cases hep : alookup bag "endpoints" with
        | none =>
          exfalso
          have e1 : update_postgres_endpoints st rel admin = .error .attributeError := by
            simp [update_postgres_endpoints, hD, hbag, hcfg, hep]
          rw [e1] at h1
          exact absurd h1 (by simp)
        | some ep =>
          have e1 := update_pe_ok_eq st rel admin D bag ep hD hbag hep hcfg
          rw [e1] at h1
          have hc : cfg1 =
              ⟨upe_databases st.config.databases D bag ep admin (get_read_only_endpoints st),
                st.config.users, st.config.pgbouncer⟩ := by
            have := h1
            simp only [Except.ok.injEq] at this
            exact this.symm
          refine (update_pe_ok_eq { st with config := cfg1, backendDatabag := some bag }
            rel admin D bag ep hD rfl hep hcfg).trans ?_
          congr 1
          dsimp only
          rw [gro_eq_of_backend_eq { st with config := cfg1, backendDatabag := some bag } st
            hbag.symm, hc]
          dsimp only
          rw [upe_databases_idem _ _ _ _ _ _ hnod]
      · exfalso
        have hcfg' : st.configExists = false := by
          simpa using hcfg
        have e1 : update_postgres_endpoints st rel admin = .error .fileNotFound := by
          simp [update_postgres_endpoints, hD, hbag, hcfg']
        rw [e1] at h1
        exact absurd h1 (by simp)

/-!
## Relation-broken without a breaking flag (claim C7)
-/

theorem applyUpdates3_eq (a b c : String) (x y z : String)
    (bag : List (String × String)) :
    applyUpdates [(a, .pstr x), (b, .pstr y), (c, .pstr z)] bag =
      ainsert c z (ainsert b y (ainsert a x bag)) := rfl

theorem applyUpdates3_idem (a b c : String) (x y z : String)
    (bag : List (String × String)) (hab : a ≠ b) (hac : a ≠ c) (hbc : b ≠ c) :
    applyUpdates [(a, .pstr x), (b, .pstr y), (c, .pstr z)]
        (applyUpdates [(a, .pstr x), (b, .pstr y), (c, .pstr z)] bag) =
      applyUpdates [(a, .pstr x), (b, .pstr y), (c, .pstr z)] bag := by
  simp only [applyUpdates3_eq]
  have ha : alookup (ainsert c z (ainsert b y (ainsert a x bag))) a = some x := by
    rw [alookup_ainsert_ne _ _ hac, alookup_ainsert_ne _ _ hab]
    exact alookup_ainsert_self _ _ _
  have hb : alookup (ainsert c z (ainsert b y (ainsert a x bag))) b = some y := by
    rw [alookup_ainsert_ne _ _ hbc]
    exact alookup_ainsert_self _ _ _
  have hc : alookup (ainsert c z (ainsert b y (ainsert a x bag))) c = some z :=
    alookup_ainsert_self _ _ _
  rw [ainsert_self ha, ainsert_self hb, ainsert_self hc]

theorem alookup_conn_updates (bag : List (String × String)) (m p j : String)
    (hj1 : j ≠ "master") (hj2 : j ≠ "port") (hj3 : j ≠ "host") :
    alookup
        (applyUpdates [("master", .pstr m), ("port", .pstr p), ("host", .pstr "localhost")]
          bag) j =
      alookup bag j := by
  rw [applyUpdates3_eq]
  rw [alookup_ainsert_ne _ _ hj3, alookup_ainsert_ne _ _ hj2, alookup_ainsert_ne _ _ hj1]

theorem update_connection_info_idem (st : CharmState) (rel : RelationData) (port : String) :
    update_connection_info st (update_connection_info st rel port) port =
      update_connection_info st rel port := by
  cases hd : alookup rel.unitDatabag "database" with
  | none =>
    have e : update_connection_info st rel port = rel := by
      unfold update_connection_info
      rw [hd]
    rw [e, e]
  | some d =>
    cases hu : alookup rel.unitDatabag "user" with
    | none =>
      have e : update_connection_info st rel port = rel := by
        unfold update_connection_info
        rw [hd, hu]
      rw [e, e]
    | some u =>
      cases hpw : alookup rel.unitDatabag "password" with
      | none =>
        have e : update_connection_info st rel port = rel := by
          unfold update_connection_info
          rw [hd, hu, hpw]
        rw [e, e]
      | some pw =>
        have e1 : update_connection_info st rel port =
            update_databags st.isLeader rel
              [("master", .pstr (master_connstr d port u pw rel.remoteApp)),
               ("port", .pstr port), ("host", .pstr "localhost")] := by
          unfold update_connection_info
          rw [hd, hu, hpw]
        rw [e1]
        have hd1 : alookup (update_databags st.isLeader rel
            [("master", .pstr (master_connstr d port u pw rel.remoteApp)),
             ("port", .pstr port), ("host", .pstr "localhost")]).unitDatabag "database" =
            some d := by
          show alookup (applyUpdates _ rel.unitDatabag) "database" = some d
          rw [alookup_conn_updates _ _ _ _ (by decide) (by decide) (by decide)]
          exact hd
        have hu1 : alookup (update_databags st.isLeader rel
            [("master", .pstr (master_connstr d port u pw rel.remoteApp)),
             ("port", .pstr port), ("host", .pstr "localhost")]).unitDatabag "user" =
            some u := by
          show alookup (applyUpdates _ rel.unitDatabag) "user" = some u
          rw [alookup_conn_updates _ _ _ _ (by decide) (by decide) (by decide)]
          exact hu
        have hpw1 : alookup (update_databags st.isLeader rel
            [("master", .pstr (master_connstr d port u pw rel.remoteApp)),
             ("port", .pstr port), ("host", .pstr "localhost")]).unitDatabag "password" =
            some pw := by
          show alookup (applyUpdates _ rel.unitDatabag) "password" = some pw
          rw [alookup_conn_updates _ _ _ _ (by decide) (by decide) (by decide)]
          exact hpw
        unfold update_connection_info
        rw [hd1, hu1, hpw1]
        unfold update_databags
        dsimp only
        by_cases hL : st.isLeader = true
        · simp only [if_pos hL]
          rw [applyUpdates3_idem _ _ _ _ _ _ _ (by decide) (by decide) (by decide)]
          rw [applyUpdates3_idem _ _ _ _ _ _ _ (by decide) (by decide) (by decide)]
        · simp only [if_neg hL]
          rw [applyUpdates3_idem _ _ _ _ _ _ _ (by decide) (by decide) (by decide)]

/-- **C7** A relation-broken notification on the leader with no breaking flag
in the peer store performs no deletion of any kind: it issues no external
call, leaves the Config Document, the peer databag and the whole process
state unchanged, does not defer or fail, and only republishes the connection
info into the relation databags — a republish that, from unchanged state, is
idempotent (rewrites identical values). -/
theorem broken_no_flag_frame (st : CharmState) (admin : Bool) (rel : RelationData)
    (hlead : st.isLeader = true)
    (hflag : alookup st.peersAppDatabag (break_flag_key admin rel.rid) = none) :
    on_db_broken st admin rel =
      ⟨st, some (update_connection_info st rel st.listenPort), [], false, false, none⟩ ∧
    update_connection_info st (update_connection_info st rel st.listenPort) st.listenPort =
      update_connection_info st rel st.listenPort := by
  constructor
  · unfold on_db_broken
    rw [hlead]
    rw [if_neg (by simp)]
    dsimp only
    rw [hflag]
    rw [if_pos (by rfl)]
  · exact update_connection_info_idem st rel st.listenPort

/-!
## Database retention invariant (claim C1)
-/

/-- One other client link references the database: its relation id differs
from the broken relation's and its unit databag names the same database. -/
def refs_db (evId : Nat) (database : String) (r : RelationData) : Bool :=
  decide (r.rid ≠ evId) && decide (alookup r.unitDatabag "database" = some database)

theorem scan_delete_db_eq_any (evId : Nat) (database : String) (l : List RelationData) :
    scan_delete_db evId database l = !(l.any (refs_db evId database)) := by
  induction l with
  | nil => rfl
  | cons r rest ih =>
    by_cases h1 : r.rid = evId
    · have hp : refs_db evId database r = false := by
        simp [refs_db, h1]
      simp [scan_delete_db, h1, List.any_cons, hp, ih]
    · by_cases h2 : alookup r.unitDatabag "database" = some database
      · have hp : refs_db evId database r = true := by
          simp [refs_db, h1, h2]
        simp [scan_delete_db, h1, h2, List.any_cons, hp]
      · have hp : refs_db evId database r = false := by
          simp [refs_db, h2]
        simp [scan_delete_db, h1, h2, List.any_cons, hp, ih]

theorem on_db_broken_config_databases (st : CharmState) (admin : Bool)
    (rel : RelationData) (u D : String)
    (hlead : st.isLeader = true)
    (hflag : alookup st.peersAppDatabag (break_flag_key admin rel.rid) = some "true")
    (havail : backend_postgres_available st = true)
    (huser : alookup rel.unitDatabag "user" = some u)
    (hdb : alookup rel.unitDatabag "database" = some D)
    (hcfg : st.configExists = true) :
    (on_db_broken st admin rel).st.config.databases =
      (if scan_delete_db rel.rid D (st.dbRelations ++ st.dbAdminRelations) = true then
        aremove (D ++ "_standby") (aremove D st.config.databases)
      else st.config.databases) := by
  unfold on_db_broken
  rw [hlead]
  rw [if_neg (by simp)]
  dsimp only
  rw [hflag]
  rw [if_neg (by decide)]
  rw [huser, hdb, havail]
  rw [if_neg (by simp)]
  rw [hcfg]
  rw [if_neg (by simp)]
  dsimp only
  simp only [Option.getD_some]

/-- **C1** With the breaking flag set, the backend available and the link's
user/database recorded (on the leader, with a readable Config Document whose
route keys are duplicate-free), handling relation-broken removes database D's
route and its `_standby` alias exactly when no other active client link —
across both the "db" and "db-admin" flavors — has D in its unit databag; if
at least one other link references D the route table is left entirely
unchanged.  The decision is an existence test over the other links, so it is
invariant under any permutation of the scanned link list. -/
theorem db_retention_invariant (st : CharmState) (admin : Bool) (rel : RelationData)
    (u D : String)
    (hlead : st.isLeader = true)
    (hflag : alookup st.peersAppDatabag (break_flag_key admin rel.rid) = some "true")
    (havail : backend_postgres_available st = true)
    (huser : alookup rel.unitDatabag "user" = some u)
    (hdb : alookup rel.unitDatabag "database" = some D)
    (hcfg : st.configExists = true)
    (hnod : (keysOf st.config.databases).Nodup) :
    ((st.dbRelations ++ st.dbAdminRelations).any (refs_db rel.rid D) = false →
      alookup (on_db_broken st admin rel).st.config.databases D = none ∧
        alookup (on_db_broken st admin rel).st.config.databases (D ++ "_standby") = none) ∧
    ((st.dbRelations ++ st.dbAdminRelations).any (refs_db rel.rid D) = true →
      (on_db_broken st admin rel).st.config.databases = st.config.databases) ∧
    (∀ l', (st.dbRelations ++ st.dbAdminRelations).Perm l' →
      scan_delete_db rel.rid D l' =
        scan_delete_db rel.rid D (st.dbRelations ++ st.dbAdminRelations)) := by
  have hconf := on_db_broken_config_databases st admin rel u D hlead hflag havail huser hdb
    hcfg
  refine ⟨?_, ?_, ?_⟩
  · intro hany
    have hscan : scan_delete_db rel.rid D (st.dbRelations ++ st.dbAdminRelations) = true := by
      rw [scan_delete_db_eq_any, hany]
      rfl
    rw [hconf, if_pos hscan]
    constructor
    · rw [alookup_aremove_ne _ (fun h => append_standby_ne_self D h.symm)]
      exact alookup_aremove_self hnod
    · exact alookup_aremove_self (keys_nodup_aremove _ hnod)
  · intro hany
    have hscan : scan_delete_db rel.rid D (st.dbRelations ++ st.dbAdminRelations) = false := by
      rw [scan_delete_db_eq_any, hany]
      rfl
    rw [hconf, hscan]
    simp
  · intro l' hperm
    rw [scan_delete_db_eq_any, scan_delete_db_eq_any, any_perm hperm]

/-!
## Join-time username and password policy (claims C5, C10)
-/

theorem alookup_join_updates_user (bag : List (String × String)) (uv : String)
    (pv : PyVal) (dv : String) :
    alookup
        (applyUpdates [("user", .pstr uv), ("password", pv), ("database", .pstr dv)] bag)
        "user" = some uv := by
  show alookup (ainsert "database" dv (ainsert "password" (pyStr pv) (ainsert "user" uv bag)))
    "user" = some uv
  rw [alookup_ainsert_ne _ _ (by decide), alookup_ainsert_ne _ _ (by decide)]
  exact alookup_ainsert_self _ _ _

theorem alookup_join_updates_password (bag : List (String × String)) (uv : String)
    (pv : PyVal) (dv : String) :
    alookup
        (applyUpdates [("user", .pstr uv), ("password", pv), ("database", .pstr dv)] bag)
        "password" = some (pyStr pv) := by
  show alookup (ainsert "database" dv (ainsert "password" (pyStr pv) (ainsert "user" uv bag)))
    "password" = some (pyStr pv)
  rw [alookup_ainsert_ne _ _ (by decide)]
  exact alookup_ainsert_self _ _ _

theorem alookup_join_updates_database (bag : List (String × String)) (uv : String)
    (pv : PyVal) (dv : String) :
    alookup
        (applyUpdates [("user", .pstr uv), ("password", pv), ("database", .pstr dv)] bag)
        "database" = some dv :=
  alookup_ainsert_self _ _ _

/-- **C5 (amended)** On a join notification that passes the readiness,
database-name and extensions checks: the username written to the databag is
`generate_username`, a deterministic function of this charm's *own*
application name, the relation id and the model name (the requesting
application's identity plays no role); the leader publishes the freshly
generated password; a non-leader issues no password generation (no external
calls at all), defers when the peer store has no password under that
username, and publishes the peer-store password when one is present. -/
theorem join_username_and_password_policy (st : CharmState) (admin : Bool)
    (rel : RelationData) (freshPw D : String)
    (hready : st.backendReady = true)
    (hdbA : alookup rel.remoteAppDatabag "database" = some D)
    (hDne : D ≠ "")
    (hextA : alookup rel.remoteAppDatabag "extensions" = none)
    (hextU : alookup rel.remoteUnitDatabag "extensions" = none) :
    (∀ st' : CharmState, st'.appName = st.appName → st'.modelName = st.modelName →
      generate_username st' rel.rid = generate_username st rel.rid) ∧
    (st.isLeader = true →
      ∃ rel1, (on_db_joined st admin rel freshPw).evRel = some rel1 ∧
        alookup rel1.unitDatabag "user" = some (generate_username st rel.rid) ∧
        alookup rel1.unitDatabag "password" = some freshPw ∧
        ExtCall.generatePassword ∈ (on_db_joined st admin rel freshPw).calls) ∧
    (st.isLeader = false →
      ∃ rel1, (on_db_joined st admin rel freshPw).evRel = some rel1 ∧
        alookup rel1.unitDatabag "user" = some (generate_username st rel.rid) ∧
        (on_db_joined st admin rel freshPw).calls = [] ∧
        (alookup st.peersAppDatabag (generate_username st rel.rid) = none →
          (on_db_joined st admin rel freshPw).deferred = true) ∧
        (∀ pw, alookup st.peersAppDatabag (generate_username st rel.rid) = some pw →
          pw ≠ "" → alookup rel1.unitDatabag "password" = some pw)) := by
  refine ⟨?_, ?_, ?_⟩
  · intro st' h1 h2
    unfold generate_username
    rw [h1, h2]
  · intro hlead
    unfold on_db_joined
    rw [hready, if_neg (by simp)]
    dsimp only
    rw [hdbA]
    rw [if_pos (show (some D).getD "" ≠ "" by simpa using hDne)]
    dsimp only
    rw [hextA, hextU]
    rw [if_neg (show ¬(((none : Option String).isSome ||
      (none : Option String).isSome) = true) by simp)]
    rw [hlead, if_pos rfl]
    try dsimp only
    refine ⟨update_databags true rel
      [("user", .pstr (generate_username st rel.rid)), ("password", .pstr freshPw),
       ("database", .pstr D)], ?_, ?_, ?_, ?_⟩
    · repeat' split
      all_goals rfl
    · exact alookup_join_updates_user _ _ _ _
    · exact alookup_join_updates_password _ _ _ _
    · repeat' split
      all_goals simp
  · intro hlead
    unfold on_db_joined
    rw [hready, if_neg (by simp)]
    dsimp only
    rw [hdbA]
    rw [if_pos (show (some D).getD "" ≠ "" by simpa using hDne)]
    dsimp only
    rw [hextA, hextU]
    rw [if_neg (show ¬(((none : Option String).isSome ||
      (none : Option String).isSome) = true) by simp)]
    rw [hlead, if_neg (show ¬(false = true) by simp)]
    try dsimp only
    refine ⟨_, rfl, ?_, rfl, ?_, ?_⟩
    · exact alookup_join_updates_user _ _ _ _
    · intro hnone
      rw [hnone]
      rfl
    · intro pw hpw hne
      rw [hpw]
      have := alookup_join_updates_password rel.unitDatabag (generate_username st rel.rid)
        (.pstr pw) D
      simpa using this

/-- **C5 (counterexample)** The published username is not a function of
(requesting application identity, relation id, model id): two states that
agree on the requesting application ("psql"), the relation id (4) and the
model name but differ in this charm's own application name produce different
usernames. -/
def c5rel : RelationData :=
  ⟨4, "psql", "psql/0", [], [], [("database", "cli")], []⟩

def c5st1 : CharmState :=
  ⟨"pgbouncer", "m", false, true, true, true, "6432", "10.0.0.1", "12",
    ⟨[], [], []⟩, [], none, [], []⟩

def c5st2 : CharmState :=
  { c5st1 with appName := "pgb2" }

theorem join_username_not_remote_determined :
    c5st1.modelName = c5st2.modelName ∧
    (on_db_joined c5st1 false c5rel "pw").evRel.map (fun r => alookup r.unitDatabag "user") ≠
      (on_db_joined c5st2 false c5rel "pw").evRel.map
        (fun r => alookup r.unitDatabag "user") := by
  constructor
  · rfl
  · decide

/-- **C10** On a non-leader join with the peer store missing the derived
user's password, the handler defers but continues: it still writes user,
password and database into the unit databag, and since `update_databags`
coerces values with `str`, the published password is the literal string
"None". -/
theorem join_nonleader_defer_continues (st : CharmState) (admin : Bool)
    (rel : RelationData) (freshPw D : String)
    (hready : st.backendReady = true)
    (hdbA : alookup rel.remoteAppDatabag "database" = some D)
    (hDne : D ≠ "")
    (hextA : alookup rel.remoteAppDatabag "extensions" = none)
    (hextU : alookup rel.remoteUnitDatabag "extensions" = none)
    (hlead : st.isLeader = false)
    (hpw : alookup st.peersAppDatabag (generate_username st rel.rid) = none) :
    (on_db_joined st admin rel freshPw).deferred = true ∧
    ∃ rel1, (on_db_joined st admin rel freshPw).evRel = some rel1 ∧
      alookup rel1.unitDatabag "user" = some (generate_username st rel.rid) ∧
      alookup rel1.unitDatabag "password" = some "None" ∧
      alookup rel1.unitDatabag "database" = some D := by
  unfold on_db_joined
  rw [hready, if_neg (by simp)]
  dsimp only
  rw [hdbA]
  rw [if_pos (show (some D).getD "" ≠ "" by simpa using hDne)]
  dsimp only
  rw [hextA, hextU]
  rw [if_neg (show ¬(((none : Option String).isSome ||
    (none : Option String).isSome) = true) by simp)]
  rw [hlead, if_neg (show ¬(false = true) by simp)]
  try dsimp only
  rw [hpw]
  refine ⟨rfl, _, rfl, ?_, ?_, ?_⟩
  · exact alookup_join_updates_user _ _ _ _
  · have := alookup_join_updates_password rel.unitDatabag (generate_username st rel.rid)
      .pnone D
    simpa using this
  · exact alookup_join_updates_database _ _ _ _

/-!
## Departed-handler breaking flag (claim C4)
-/

def c4st : CharmState :=
  ⟨"pgbouncer", "m", true, true, true, true, "6432", "10.0.0.1", "12",
    ⟨[], [], []⟩, [], none, [], []⟩

def c4rel : RelationData :=
  ⟨7, "psql", "psql/0", [], [], [("database", "cli")], []⟩

/-- **C4 (code evaluation)** On the leader, with the departing application
equal to this charm's own application (relation id 7, flavor "db"), the
departed handler raises AttributeError at `self.relation.id` instead of
writing the breaking flag: the peer databag is unchanged and in particular
holds no "db-7-relation-breaking" key afterwards, although the broken
handler later looks the flag up under exactly that key. -/
theorem departed_self_raises :
    (on_db_departed c4st false c4rel true).raised = some PyErr.attributeError ∧
    (on_db_departed c4st false c4rel true).st.peersAppDatabag = c4st.peersAppDatabag ∧
    alookup (on_db_departed c4st false c4rel true).st.peersAppDatabag
      (break_flag_key false 7) = none := by
  refine ⟨rfl, rfl, rfl⟩

/-!
## Backend relation-broken teardown (claims C6, C9)
-/

def c6bag : List (String × String) :=
  [("endpoints", "10.0.0.5:5432"), ("username", "relation-3"), ("password", "pw")]

def c6st : CharmState :=
  ⟨"pgbouncer", "m", true, true, true, true, "6432", "10.0.0.1", "12",
    ⟨[], [("relation-3", true)],
      [("auth_query", "SELECT 1"), ("auth_file", AUTH_FILE_PATH)]⟩,
    [], some c6bag, [], []⟩

/-- **C6 (counterexample)** The backend relation-broken handler completes
normally but leaves the `auth_file` setting installed at database-created
time in the Config Document: the claim that every auth-related entry
(including auth_file) is removed is false. -/
theorem backend_broken_keeps_auth_file :
    alookup (on_backend_broken c6st).st.config.pgbouncer "auth_file" =
      some AUTH_FILE_PATH ∧
    (on_backend_broken c6st).raised = none ∧
    (on_backend_broken c6st).deferred = false := by
  refine ⟨by decide, rfl, rfl⟩

/-- **C6 (amended)** Handling backend relation-broken defers when the Config
Document does not yet exist (leaving the state untouched); otherwise it
removes the backend user's entry, pops the `auth_user` and `auth_query`
settings, deletes the credential file — but leaves the `auth_file` setting in
place. -/
theorem backend_broken_amended (st : CharmState) (bag : List (String × String))
    (user : String)
    (hbag : st.backendDatabag = some bag)
    (hep : (alookup bag "endpoints").isSome = true)
    (huser : alookup bag "username" = some user)
    (hpw : (alookup bag "password").isSome = true) :
    (st.configExists = false →
      (on_backend_broken st).deferred = true ∧ (on_backend_broken st).st = st) ∧
    (st.configExists = true →
      (keysOf st.config.users).Nodup →
      (keysOf st.config.pgbouncer).Nodup →
      alookup (on_backend_broken st).st.config.users user = none ∧
      alookup (on_backend_broken st).st.config.pgbouncer "auth_user" = none ∧
      alookup (on_backend_broken st).st.config.pgbouncer "auth_query" = none ∧
      alookup (on_backend_broken st).st.config.pgbouncer "auth_file" =
        alookup st.config.pgbouncer "auth_file" ∧
      ExtCall.deleteFile (PGB_DIR ++ "/userlist.txt") ∈ (on_backend_broken st).calls) := by
  obtain ⟨ep, hepv⟩ := Option.isSome_iff_exists.mp hep
  obtain ⟨pw, hpwv⟩ := Option.isSome_iff_exists.mp hpw
  constructor
  · intro hcfg
    unfold on_backend_broken
    rw [hcfg]
    exact ⟨rfl, rfl⟩
  · intro hcfg hnu hns
    have hred : on_backend_broken st =
        ⟨{ st with config :=
            { databases := st.config.databases,
              users := aremove user st.config.users,
              pgbouncer := aremove "auth_query" (aremove "auth_user" st.config.pgbouncer) } },
          none, [.renderCfg, .deleteFile (PGB_DIR ++ "/userlist.txt")], false, false,
          none⟩ := by
      unfold on_backend_broken
      rw [if_neg (show ¬(st.configExists = false) by simp [hcfg])]
      rw [hbag]
      dsimp only
      rw [hepv, huser, hpwv]
      dsimp only [PgbConfig.remove_user]
    rw [hred]
    refine ⟨?_, ?_, ?_, ?_, ?_⟩
    · exact alookup_aremove_self hnu
    · rw [alookup_aremove_ne _ (by decide)]
      exact alookup_aremove_self hns
    · exact alookup_aremove_self (keys_nodup_aremove _ hns)
    · rw [alookup_aremove_ne _ (by decide), alookup_aremove_ne _ (by decide)]
    · simp

def c9st : CharmState :=
  ⟨"pgbouncer", "m", true, true, true, true, "6432", "10.0.0.1", "12",
    ⟨[], [], []⟩, [], none, [], []⟩

/-- **C9 (counterexample)** With the backend relation absent entirely,
evaluating `auth_user` raises AttributeError (`postgres_databag` is `None`
when its `.get` is taken) — it does not return `None` as the claim states. -/
theorem auth_user_raises_when_relation_absent :
    backend_auth_user c9st = .error .attributeError ∧
    backend_auth_user c9st ≠ .ok none := by
  refine ⟨rfl, ?_⟩
  intro h
  rw [show backend_auth_user c9st =
    (.error .attributeError : Except PyErr (Option String)) from rfl] at h
  exact Except.noConfusion h

/-- **C9 (amended)** When the backend relation exists, `auth_user` is `None`
while the remote username is unknown and otherwise equals the deterministic
derivation `f"pgbouncer_auth_{username}".replace("-", "_")`; when the
relation is absent entirely the property raises AttributeError instead of
returning `None`. -/
theorem auth_user_amended (st : CharmState) :
    (st.backendDatabag = none → backend_auth_user st = .error .attributeError) ∧
    (∀ bag, st.backendDatabag = some bag →
      (alookup bag "username" = none → backend_auth_user st = .ok none) ∧
      (∀ u, alookup bag "username" = some u →
        backend_auth_user st = .ok (some (replaceDash ("pgbouncer_auth_" ++ u))))) := by
  refine ⟨?_, ?_⟩
  · intro h
    unfold backend_auth_user
    rw [h]
  · intro bag hbag
    constructor
    · intro h
      unfold backend_auth_user
      rw [hbag]
      dsimp only
      rw [h]
    · intro u h
      unfold backend_auth_user
      rw [hbag]
      dsimp only
      rw [h]

/-!
## Concrete witnesses
-/

def c1bag : List (String × String) :=
  [("endpoints", "10.0.0.5:5432"), ("username", "relation-3"), ("password", "pw")]

def c1rel : RelationData :=
  ⟨5, "psql", "psql/0", [("user", "u1"), ("database", "cli")], [], [], []⟩

def c1st : CharmState :=
  ⟨"pgbouncer", "m", true, true, true, true, "6432", "10.0.0.1", "12",
    ⟨[("cli", ⟨"h", "cli", "5432", none⟩), ("cli_standby", ⟨"h2", "cli", "5432", none⟩)],
      [("u1", false)], []⟩,
    [("db-5-relation-breaking", "true")], some c1bag,
    [⟨5, "psql", "psql/0", [("user", "u1"), ("database", "cli")], [], [], []⟩,
      ⟨6, "other", "other/0", [("database", "foo")], [], [], []⟩], []⟩

theorem db_retention_invariant_witness :
    alookup (on_db_broken c1st false c1rel).st.config.databases "cli" = none ∧
      alookup (on_db_broken c1st false c1rel).st.config.databases ("cli" ++ "_standby") =
        none :=
  (db_retention_invariant c1st false c1rel "u1" "cli" rfl (by decide) (by decide)
    (by decide) (by decide) rfl (by decide)).1 (by decide)

theorem nonleader_no_backend_mutation_witness :
    c5st1.isLeader = false ∧
    (run c5st1 [Event.backendEndpointsChanged, Event.backendBroken]).2.all
      (fun c => !c.isBackendMutation) = true := by
  refine ⟨rfl, ?_⟩
  rw [List.all_eq_true]
  intro c hc
  have h := nonleader_no_backend_mutation c5st1 rfl
    [Event.backendEndpointsChanged, Event.backendBroken] c hc
  simp [h]

def c3bag : List (String × String) :=
  [("endpoints", "10.0.0.5:5432"), ("username", "relation-3"), ("password", "pw"),
    ("read-only-endpoints", "10.0.0.6:5432,10.0.0.7:5432")]

def c3rel : RelationData :=
  ⟨3, "psql", "psql/0", [("database", "cli")], [], [], []⟩

def c3st : CharmState :=
  ⟨"pgbouncer", "m", true, true, true, true, "6432", "10.0.0.1", "12",
    ⟨[("cli", ⟨"old", "cli", "5432", none⟩)], [], []⟩, [], some c3bag, [], []⟩

theorem standby_alias_correct_witness :
    ∃ cfg', update_postgres_endpoints c3st c3rel false = .ok cfg' ∧
      ∃ r, alookup cfg'.databases ("cli" ++ "_standby") = some r ∧
        countKey cfg'.databases ("cli" ++ "_standby") = 1 ∧
        r.host = joinWith "," ((get_read_only_endpoints c3st).map hostPart) := by
  obtain ⟨cfg', h1, _, h3⟩ := standby_alias_correct c3st c3rel false "cli" c3bag
    "10.0.0.5:5432" (by decide) rfl (by decide) rfl (by decide)
  exact ⟨cfg', h1, h3 (by decide)⟩

theorem join_username_and_password_policy_witness :
    ∃ rel1, (on_db_joined c5st1 false c5rel "pw").evRel = some rel1 ∧
      alookup rel1.unitDatabag "user" = some (generate_username c5st1 c5rel.rid) ∧
      (on_db_joined c5st1 false c5rel "pw").calls = [] ∧
      (alookup c5st1.peersAppDatabag (generate_username c5st1 c5rel.rid) = none →
        (on_db_joined c5st1 false c5rel "pw").deferred = true) ∧
      (∀ pw, alookup c5st1.peersAppDatabag (generate_username c5st1 c5rel.rid) = some pw →
        pw ≠ "" → alookup rel1.unitDatabag "password" = some pw) :=
  (join_username_and_password_policy c5st1 false c5rel "pw" "cli" rfl (by decide)
    (by decide) rfl rfl).2.2 rfl

theorem backend_broken_amended_witness :
    alookup (on_backend_broken c6st).st.config.users "relation-3" = none ∧
    alookup (on_backend_broken c6st).st.config.pgbouncer "auth_user" = none ∧
    alookup (on_backend_broken c6st).st.config.pgbouncer "auth_query" = none ∧
    alookup (on_backend_broken c6st).st.config.pgbouncer "auth_file" =
      alookup c6st.config.pgbouncer "auth_file" ∧
    ExtCall.deleteFile (PGB_DIR ++ "/userlist.txt") ∈ (on_backend_broken c6st).calls :=
  (backend_broken_amended c6st c6bag "relation-3" rfl (by decide) (by decide)
    (by decide)).2 rfl (by decide) (by decide)

theorem broken_no_flag_frame_witness :
    on_db_broken c4st false c4rel =
      ⟨c4st, some (update_connection_info c4st c4rel c4st.listenPort), [], false, false,
        none⟩ ∧
    update_connection_info c4st (update_connection_info c4st c4rel c4st.listenPort)
        c4st.listenPort =
      update_connection_info c4st c4rel c4st.listenPort :=
  broken_no_flag_frame c4st false c4rel rfl rfl

def c8cfg : PgbConfig :=
  ⟨upe_databases c3st.config.databases "cli" c3bag "10.0.0.5:5432" false
    (get_read_only_endpoints c3st), c3st.config.users, c3st.config.pgbouncer⟩

theorem update_postgres_endpoints_idem_witness :
    update_postgres_endpoints { c3st with config := c8cfg } c3rel false = .ok c8cfg :=
  update_postgres_endpoints_idem c3st c3rel false c8cfg (by decide)
    (update_pe_ok_eq c3st c3rel false "cli" c3bag "10.0.0.5:5432" (by decide) rfl
      (by decide) rfl)

theorem auth_user_amended_witness :
    backend_auth_user c6st = .ok (some (replaceDash ("pgbouncer_auth_" ++ "relation-3"))) :=
  ((auth_user_amended c6st).2 c6bag rfl).2 "relation-3" (by decide)

theorem join_nonleader_defer_continues_witness :
    (on_db_joined c5st1 false c5rel "pw").deferred = true ∧
    ∃ rel1, (on_db_joined c5st1 false c5rel "pw").evRel = some rel1 ∧
      alookup rel1.unitDatabag "user" = some (generate_username c5st1 c5rel.rid) ∧
      alookup rel1.unitDatabag "password" = some "None" ∧
      alookup rel1.unitDatabag "database" = some "cli" :=
  join_nonleader_defer_continues c5st1 false c5rel "pw" "cli" rfl (by decide) (by decide)
    rfl rfl rfl (by decide)

end PgbOp
